import Mathlib

/-!
# Verification of the pykefcontrol long-poll event core

A shallow embedding of the polling-queue subscription logic and event
decoding of `pykefcontrol/kef_connector.py` (classes `KefConnector` and
`KefAsyncConnector`), together with theorems about the embedded code.

Python dictionaries are modelled as insertion-ordered association lists,
Python JSON values as the inductive `JVal`, and Python exceptions as
`Except` results.
-/

set_option autoImplicit false

namespace PyKef

/-- A JSON value as produced by `response.json()`. -/
inductive JVal where
  | null
  | bool (b : Bool)
  | int (n : Int)
  | str (s : String)
  | arr (xs : List JVal)
  | obj (fields : List (String × JVal))

/-- Python truthiness of a JSON value (`if x:`). -/
def JVal.truthy : JVal → Bool
  | .null => false
  | .bool b => b
  | .int n => n != 0
  | .str s => s ≠ ""
  | .arr xs => !xs.isEmpty
  | .obj fs => !fs.isEmpty

/-- Exceptions the embedded code can raise. -/
inductive PyErr where
  | attributeError
  | typeError
deriving DecidableEq, Repr

/-- First-match lookup in an insertion-ordered association list
(Python `dict.get(k)` / `dict[k]` key search). -/
def assocGet {α : Type} : List (String × α) → String → Option α
  | [], _ => none
  | (k2, v2) :: rest, k => if k2 = k then some v2 else assocGet rest k

/-- Python `dict[k] = v`: replace in place if the key exists (keeping its
position), otherwise append at the end. -/
def assocSet {α : Type} : List (String × α) → String → α → List (String × α)
  | [], k, v => [(k, v)]
  | (k2, v2) :: rest, k, v =>
    if k2 = k then (k, v) :: rest else (k2, v2) :: assocSet rest k v

/-- Python `x.get(key)` with implicit default `None`: succeeds only on a
dictionary; on anything else (a string, a list, ...) Python raises
`AttributeError` because only `dict` has a `get` method. -/
def pyGet (v : JVal) (key : String) : Except PyErr JVal :=
  match v with
  | .obj fields => .ok ((assocGet fields key).getD .null)
  | _ => .error .attributeError

/-- Python `x.get(key, default)`. -/
def pyGetD (v : JVal) (key : String) (dflt : JVal) : Except PyErr JVal :=
  match v with
  | .obj fields => .ok ((assocGet fields key).getD dflt)
  | _ => .error .attributeError

/-- One entry of the long-poll response array, as the code reads it:
`j["path"]` and `j.get("itemValue", "updated")` are the only accesses
(`kef_connector.py` lines 3120-3127).  `itemValue = none` models a JSON
object without an `itemValue` member. -/
structure RawEvent where
  path : String
  itemValue : Option JVal

/-- One step of the fill loop of `poll_speaker` (lines 3120-3124):
`events.get(j["path"], False)` is truthy exactly when the key is present
with a non-empty list, in which case the event is appended; otherwise the
key is set to the singleton list. -/
def fillStep (events : List (String × List RawEvent)) (j : RawEvent) :
    List (String × List RawEvent) :=
  match assocGet events j.path with
  | some l => if l.isEmpty then assocSet events j.path [j]
              else assocSet events j.path (l ++ [j])
  | none => assocSet events j.path [j]

/-- The fill loop of `poll_speaker` (lines 3118-3124): group the raw
response entries by path, preserving arrival order within each group. -/
def fillEvents (json_output : List RawEvent) : List (String × List RawEvent) :=
  json_output.foldl fillStep []

/-- `events[k][-1].get("itemValue", "updated")` (line 3127).  The code
only ever applies this to non-empty groups; Python would raise
`IndexError` on an empty list, modelled here by an arbitrary value. -/
def pruneValue (l : List RawEvent) : JVal :=
  match l.getLast? with
  | some j => j.itemValue.getD (.str "updated")
  | none => .null

/-- The prune loop of `poll_speaker` (lines 3126-3127). -/
def pruneEvents (events : List (String × List RawEvent)) :
    List (String × JVal) :=
  events.map (fun kv => (kv.1, pruneValue kv.2))

/-- The whole per-topic deduplication performed inside `poll_speaker`
(lines 3116-3127): fill then prune. -/
def dedupe (json_output : List RawEvent) : List (String × JVal) :=
  pruneEvents (fillEvents json_output)

example :
    dedupe [⟨"A", some (.int 1)⟩, ⟨"B", some (.int 2)⟩, ⟨"A", some (.int 3)⟩] =
      [("A", .int 3), ("B", .int 2)] := rfl

example : dedupe [⟨"A", some (.int 1)⟩, ⟨"A", none⟩] = [("A", .str "updated")] := rfl

theorem assocGet_assocSet_self {α : Type} (m : List (String × α)) (k : String) (v : α) :
    assocGet (assocSet m k v) k = some v := by
  induction m with
  | nil => simp [assocGet, assocSet]
  | cons kv rest ih =>
    by_cases h : kv.1 = k <;> simp [assocGet, assocSet, h, ih]

theorem assocGet_assocSet_ne {α : Type} (m : List (String × α)) (k q : String) (v : α)
    (h : q ≠ k) : assocGet (assocSet m k v) q = assocGet m q := by
  induction m with
  | nil => simp [assocGet, assocSet, Ne.symm h]
  | cons kv rest ih =>
    by_cases h2 : kv.1 = k
    · simp [assocGet, assocSet, h2, Ne.symm h]
    · simp [assocGet, assocSet, h2, ih]

theorem assocGet_eq_none_iff {α : Type} (m : List (String × α)) (k : String) :
    assocGet m k = none ↔ k ∉ m.map Prod.fst := by
  induction m with
  | nil => simp [assocGet]
  | cons kv rest ih =>
    by_cases h : kv.1 = k
    · simp [assocGet, h]
    · have hk : k ≠ kv.1 := fun hc => h hc.symm
      have hL : assocGet (kv :: rest) k = assocGet rest k := by simp [assocGet, h]
      have hR : (k ∉ (kv :: rest).map Prod.fst) ↔ k ∉ rest.map Prod.fst := by
        simp [List.mem_cons, hk]
      rw [hL, hR, ih]

theorem map_fst_assocSet_of_mem {α : Type} (m : List (String × α)) (k : String) (v : α)
    (h : k ∈ m.map Prod.fst) : (assocSet m k v).map Prod.fst = m.map Prod.fst := by
  induction m with
  | nil => simp at h
  | cons kv rest ih =>
    by_cases h2 : kv.1 = k
    · simp [assocSet, h2]
    · rw [List.map_cons] at h
      rcases List.mem_cons.mp h with h3 | h3
      · exact absurd h3.symm h2
      · simp [assocSet, h2, ih h3]

theorem map_fst_assocSet_of_not_mem {α : Type} (m : List (String × α)) (k : String) (v : α)
    (h : k ∉ m.map Prod.fst) : (assocSet m k v).map Prod.fst = m.map Prod.fst ++ [k] := by
  induction m with
  | nil => simp [assocSet]
  | cons kv rest ih =>
    have h1 : kv.1 ≠ k := by
      intro hc
      apply h
      rw [List.map_cons, hc]
      exact List.mem_cons_self _ _
    have h2 : k ∉ rest.map Prod.fst := by
      intro hc
      apply h
      rw [List.map_cons]
      exact List.mem_cons_of_mem _ hc
    simp [assocSet, h1, ih h2]

theorem nodup_map_fst_assocSet {α : Type} (m : List (String × α)) (k : String) (v : α)
    (h : (m.map Prod.fst).Nodup) : ((assocSet m k v).map Prod.fst).Nodup := by
  by_cases hm : k ∈ m.map Prod.fst
  · rw [map_fst_assocSet_of_mem m k v hm]; exact h
  · rw [map_fst_assocSet_of_not_mem m k v hm, List.nodup_append]
    refine ⟨h, List.nodup_singleton k, ?_⟩
    intro a ha hb
    rw [List.mem_singleton] at hb
    subst hb
    exact hm ha

/-- Invariant of the fill loop: after consuming the prefix `pre` of the raw
response, the groups map holds, for each path, exactly the events of `pre`
with that path, in arrival order. -/
def FillInv (pre : List RawEvent) (m : List (String × List RawEvent)) : Prop :=
  ((m.map Prod.fst).Nodup) ∧
  ∀ p, assocGet m p =
    if (pre.filter (fun e => e.path = p)).isEmpty then none
    else some (pre.filter (fun e => e.path = p))

theorem fillInv_step (pre : List RawEvent) (m : List (String × List RawEvent))
    (j : RawEvent) (h : FillInv pre m) : FillInv (pre ++ [j]) (fillStep m j) := by
  obtain ⟨hN, hget⟩ := h
  have hj := hget j.path
  by_cases hemp : (pre.filter (fun e => e.path = j.path)).isEmpty
  · have hnone : assocGet m j.path = none := by rw [hj, if_pos hemp]
    have hfil : pre.filter (fun e => e.path = j.path) = [] := by
      simpa [List.isEmpty_iff] using hemp
    have hstep : fillStep m j = assocSet m j.path [j] := by
      unfold fillStep; rw [hnone]
    rw [hstep]
    refine ⟨nodup_map_fst_assocSet m j.path [j] hN, fun p => ?_⟩
    by_cases hp : p = j.path
    · subst hp
      rw [assocGet_assocSet_self]
      simp [List.filter_append, hfil]
    · rw [assocGet_assocSet_ne m j.path p [j] hp, hget p]
      have : [j].filter (fun e => e.path = p) = [] := by
        simp [Ne.symm hp]
      simp [List.filter_append, this]
  · have hfil : pre.filter (fun e => e.path = j.path) ≠ [] := by
      simpa [List.isEmpty_iff] using hemp
    have hsome : assocGet m j.path = some (pre.filter (fun e => e.path = j.path)) := by
      rw [hj, if_neg hemp]
    have hstep : fillStep m j =
        assocSet m j.path ((pre.filter (fun e => e.path = j.path)) ++ [j]) := by
      unfold fillStep
      rw [hsome]
      simp [hemp]
    rw [hstep]
    refine ⟨nodup_map_fst_assocSet m j.path _ hN, fun p => ?_⟩
    by_cases hp : p = j.path
    · subst hp
      rw [assocGet_assocSet_self]
      simp [List.filter_append]
    · rw [assocGet_assocSet_ne m j.path p _ hp, hget p]
      have : [j].filter (fun e => e.path = p) = [] := by
        simp [Ne.symm hp]
      simp [List.filter_append, this]

theorem fillEvents_inv (l : List RawEvent) : FillInv l (fillEvents l) := by
  induction l using List.reverseRecOn with
  | nil =>
    refine ⟨by simp [fillEvents], fun p => ?_⟩
    simp [fillEvents, assocGet]
  | append_singleton l j ih =>
    have hfold : fillEvents (l ++ [j]) = fillStep (fillEvents l) j := by
      simp [fillEvents, List.foldl_append]
    rw [hfold]
    exact fillInv_step l (fillEvents l) j ih

theorem map_fst_pruneEvents (m : List (String × List RawEvent)) :
    (pruneEvents m).map Prod.fst = m.map Prod.fst := by
  induction m with
  | nil => rfl
  | cons kv rest ih =>
    show kv.1 :: (pruneEvents rest).map Prod.fst = kv.1 :: rest.map Prod.fst
    rw [ih]

theorem assocGet_pruneEvents (m : List (String × List RawEvent)) (p : String) :
    assocGet (pruneEvents m) p = (assocGet m p).map pruneValue := by
  induction m with
  | nil => rfl
  | cons kv rest ih =>
    show assocGet ((kv.1, pruneValue kv.2) :: pruneEvents rest) p = _
    by_cases h : kv.1 = p <;> simp [assocGet, h, ih]

/-- C1: the per-topic deduplication inside `poll_speaker` yields a mapping
with exactly one entry per distinct topic path of the input (no duplicate
keys, and a key appears exactly when the path occurs in the input), whose
value is the `itemValue` of the last occurrence of that path in input
order, or the marker string "updated" when that last occurrence has no
`itemValue`. -/
theorem dedupe_keeps_last_occurrence (l : List RawEvent) :
    ((dedupe l).map Prod.fst).Nodup ∧
    (∀ p : String, p ∈ (dedupe l).map Prod.fst ↔ p ∈ l.map RawEvent.path) ∧
    ∀ p : String,
      assocGet (dedupe l) p =
        ((l.filter (fun e => e.path = p)).getLast?).map
          (fun e => e.itemValue.getD (JVal.str "updated")) := by
  obtain ⟨hN, hget⟩ := fillEvents_inv l
  have hkeys : (dedupe l).map Prod.fst = (fillEvents l).map Prod.fst :=
    map_fst_pruneEvents (fillEvents l)
  refine ⟨by rw [hkeys]; exact hN, fun p => ?_, fun p => ?_⟩
  · rw [hkeys, ← not_iff_not, ← assocGet_eq_none_iff, hget p]
    cases hf : l.filter (fun e => e.path = p) with
    | nil =>
      have hall : ∀ e ∈ l, ¬(e.path = p) := by
        intro e he hep
        have hmf : e ∈ l.filter (fun e => e.path = p) :=
          List.mem_filter.mpr ⟨he, by simpa using hep⟩
        rw [hf] at hmf
        simp at hmf
      constructor
      · intro _ hmem
        obtain ⟨e, he, hep⟩ := List.mem_map.mp hmem
        exact hall e he hep
      · intro _
        simp
    | cons a t =>
      have ha : a ∈ l.filter (fun e => e.path = p) := by
        rw [hf]; exact List.mem_cons_self a t
      have ha2 := List.mem_filter.mp ha
      have hmem : p ∈ l.map RawEvent.path :=
        List.mem_map.mpr ⟨a, ha2.1, by simpa using ha2.2⟩
      simp [hmem]
  · rw [show assocGet (dedupe l) p = (assocGet (fillEvents l) p).map pruneValue from
      assocGet_pruneEvents (fillEvents l) p, hget p]
    cases hf : l.filter (fun e => e.path = p) with
    | nil => simp
    | cons a t =>
      cases hlast : (a :: t).getLast? with
      | none => exact absurd (List.getLast?_eq_none_iff.mp hlast) (by simp)
      | some e =>
        simp [pruneValue, hlast]

/-- `KefConnector.get_song_information` (lines 2871-2894), for the case
where `song_data` is supplied by `parse_events` (so the `song_data == None`
fallback request is not taken).  Each step is one `.get` chain of the
source, in source order; any `.get` on a non-dictionary raises. -/
def get_song_information (song_data : JVal) : Except PyErr JVal :=
  match pyGetD song_data "trackRoles" (.obj []) with
  | .error e => .error e
  | .ok tr1 =>
    match pyGet tr1 "title" with
    | .error e => .error e
    | .ok title =>
      match pyGetD song_data "trackRoles" (.obj []) with
      | .error e => .error e
      | .ok tr2 =>
        match pyGetD tr2 "mediaData" (.obj []) with
        | .error e => .error e
        | .ok md =>
          match pyGetD md "metaData" (.obj []) with
          | .error e => .error e
          | .ok metadata =>
            match pyGet metadata "artist" with
            | .error e => .error e
            | .ok artist =>
              match pyGet metadata "album" with
              | .error e => .error e
              | .ok album =>
                match pyGet metadata "albumArtist" with
                | .error e => .error e
                | .ok album_artist =>
                  match (if album_artist.truthy then .ok album_artist
                         else pyGet metadata "artist" : Except PyErr JVal) with
                  | .error e => .error e
                  | .ok album_artist_val =>
                    match pyGetD song_data "trackRoles" (.obj []) with
                    | .error e => .error e
                    | .ok tr3 =>
                      match pyGetD tr3 "icon" .null with
                      | .error e => .error e
                      | .ok cover_url =>
                        match pyGet metadata "serviceID" with
                        | .error e => .error e
                        | .ok service_id =>
                          .ok (.obj [("title", title), ("artist", artist),
                                     ("album", album),
                                     ("album_artist", album_artist_val),
                                     ("cover_url", cover_url),
                                     ("service_id", service_id)])

/-- The dictionary built by `parse_events` (lines 3052-3080).  A field is
`none` when the corresponding key was never assigned; `some v` (with `v`
possibly `JVal.null`) when it was.  `other` is `none` until the first
unrecognized topic creates the bucket. -/
structure ParsedEvents where
  source : Option JVal := none
  song_status : Option JVal := none
  volume : Option JVal := none
  song_info : Option JVal := none
  song_length : Option JVal := none
  status : Option JVal := none
  speaker_status : Option JVal := none
  device_name : Option JVal := none
  mute : Option JVal := none
  other : Option (List (String × JVal)) := none

/-- One iteration of the `for event in events` loop of `parse_events`. -/
def parseEvent (acc : ParsedEvents) (kv : String × JVal) :
    Except PyErr ParsedEvents :=
  if kv.1 = "settings:/kef/play/physicalSource" then
    match pyGet kv.2 "kefPhysicalSource" with
    | .error e => .error e
    | .ok x => .ok { acc with source := some x }
  else if kv.1 = "player:player/data/playTime" then
    match pyGet kv.2 "i64_" with
    | .error e => .error e
    | .ok x => .ok { acc with song_status := some x }
  else if kv.1 = "player:volume" then
    match pyGet kv.2 "i32_" with
    | .error e => .error e
    | .ok x => .ok { acc with volume := some x }
  else if kv.1 = "player:player/data" then
    match get_song_information kv.2 with
    | .error e => .error e
    | .ok si =>
      match pyGetD kv.2 "status" (.obj []) with
      | .error e => .error e
      | .ok st =>
        match pyGet st "duration" with
        | .error e => .error e
        | .ok dur =>
          match pyGet kv.2 "state" with
          | .error e => .error e
          | .ok state =>
            .ok { acc with song_info := some si, song_length := some dur,
                           status := some state }
  else if kv.1 = "settings:/kef/host/speakerStatus" then
    match pyGet kv.2 "kefSpeakerStatus" with
    | .error e => .error e
    | .ok x => .ok { acc with speaker_status := some x }
  else if kv.1 = "settings:/deviceName" then
    match pyGet kv.2 "string_" with
    | .error e => .error e
    | .ok x => .ok { acc with device_name := some x }
  else if kv.1 = "settings:/mediaPlayer/mute" then
    match pyGet kv.2 "bool_" with
    | .error e => .error e
    | .ok x => .ok { acc with mute := some x }
  else
    .ok { acc with other := some (assocSet (acc.other.getD []) kv.1 kv.2) }

/-- The `for event in events` loop of `parse_events`, with exceptions
propagating out of the loop. -/
def parseFold : ParsedEvents → List (String × JVal) → Except PyErr ParsedEvents
  | acc, [] => .ok acc
  | acc, kv :: rest =>
    match parseEvent acc kv with
    | .ok acc2 => parseFold acc2 rest
    | .error e => .error e

/-- `KefConnector.parse_events` (lines 3052-3080). -/
def parse_events (events : List (String × JVal)) : Except PyErr ParsedEvents :=
  parseFold {} events

/-- The pure tail of `poll_speaker` (lines 3116-3129): deduplicate the raw
long-poll response, then decode it. -/
def processPollResponse (json_output : List RawEvent) : Except PyErr ParsedEvents :=
  parse_events (dedupe json_output)

/-- The seven topic paths the `parse_events` dispatch recognizes. -/
def recognizedTopics : List String :=
  ["settings:/kef/play/physicalSource", "player:player/data/playTime",
   "player:volume", "player:player/data", "settings:/kef/host/speakerStatus",
   "settings:/deviceName", "settings:/mediaPlayer/mute"]

example :
    parse_events [("player:volume", .obj [("i32_", .int 42)])] =
      .ok { volume := some (.int 42) } := rfl

example :
    parse_events [("player:volume", .str "updated")] = .error .attributeError := rfl

example :
    parse_events [("some:unknown", .int 7)] =
      .ok { other := some [("some:unknown", .int 7)] } := rfl

/-- Value of the last entry of `l` whose key is `p`, or `dflt` when there
is none; describes one key of the `other` bucket after a run of updates. -/
def lastOr (l : List (String × JVal)) (p : String) (dflt : Option JVal) :
    Option JVal :=
  match (l.filter (fun kv => kv.1 = p)).getLast? with
  | some kv => some kv.2
  | none => dflt

theorem lastOr_cons (kv : String × JVal) (rest : List (String × JVal)) (p : String)
    (d : Option JVal) :
    lastOr (kv :: rest) p d = lastOr rest p (if kv.1 = p then some kv.2 else d) := by
  unfold lastOr
  by_cases hkp : kv.1 = p
  · rw [if_pos hkp]
    have : (kv :: rest).filter (fun kv => kv.1 = p) =
        kv :: rest.filter (fun kv => kv.1 = p) := by
      simp [List.filter_cons, hkp]
    rw [this]
    cases hf : rest.filter (fun kv => kv.1 = p) with
    | nil => rfl
    | cons b t =>
      rw [List.getLast?_cons_cons]
      cases hl : (b :: t).getLast? with
      | none => exact absurd (List.getLast?_eq_none_iff.mp hl) (by simp)
      | some e => rfl
  · rw [if_neg hkp]
    have : (kv :: rest).filter (fun kv => kv.1 = p) =
        rest.filter (fun kv => kv.1 = p) := by
      simp [List.filter_cons, hkp]
    rw [this]

theorem lastOr_eq_assocGet (events : List (String × JVal)) (p : String)
    (h : (events.map Prod.fst).Nodup) : lastOr events p none = assocGet events p := by
  induction events with
  | nil => rfl
  | cons kv rest ih =>
    rw [List.map_cons] at h
    have hcons := List.nodup_cons.mp h
    rw [lastOr_cons]
    by_cases hkp : kv.1 = p
    · have hfil : rest.filter (fun kv => kv.1 = p) = [] := by
        rw [List.filter_eq_nil_iff]
        intro a ha
        simp only [decide_eq_true_eq]
        intro hap
        exact hcons.1 (by rw [hkp]; exact List.mem_map.mpr ⟨a, ha, hap⟩)
      rw [if_pos hkp]
      unfold lastOr
      rw [hfil]
      show some kv.2 = assocGet (kv :: rest) p
      simp [assocGet, hkp]
    · rw [if_neg hkp, ih hcons.2]
      show assocGet rest p = assocGet (kv :: rest) p
      simp [assocGet, hkp]

theorem or_cons_mem_aux (a : Prop) (k T : String) (ks : List String) :
    ((a ∨ k = T) ∨ T ∈ ks) ↔ (a ∨ T ∈ k :: ks) := by
  rw [List.mem_cons]
  constructor
  · rintro ((ha | he) | hm)
    · exact Or.inl ha
    · exact Or.inr (Or.inl he.symm)
    · exact Or.inr (Or.inr hm)
  · rintro (ha | he | hm)
    · exact Or.inl (Or.inl ha)
    · exact Or.inl (Or.inr he.symm)
    · exact Or.inr hm

theorem parseEvent_fields (acc : ParsedEvents) (kv : String × JVal) (acc2 : ParsedEvents)
    (h : parseEvent acc kv = .ok acc2) :
    (acc2.source.isSome ↔ (acc.source.isSome ∨ kv.1 = "settings:/kef/play/physicalSource")) ∧
    (acc2.song_status.isSome ↔ (acc.song_status.isSome ∨ kv.1 = "player:player/data/playTime")) ∧
    (acc2.volume.isSome ↔ (acc.volume.isSome ∨ kv.1 = "player:volume")) ∧
    (acc2.song_info.isSome ↔ (acc.song_info.isSome ∨ kv.1 = "player:player/data")) ∧
    (acc2.song_length.isSome ↔ (acc.song_length.isSome ∨ kv.1 = "player:player/data")) ∧
    (acc2.status.isSome ↔ (acc.status.isSome ∨ kv.1 = "player:player/data")) ∧
    (acc2.speaker_status.isSome ↔ (acc.speaker_status.isSome ∨ kv.1 = "settings:/kef/host/speakerStatus")) ∧
    (acc2.device_name.isSome ↔ (acc.device_name.isSome ∨ kv.1 = "settings:/deviceName")) ∧
    (acc2.mute.isSome ↔ (acc.mute.isSome ∨ kv.1 = "settings:/mediaPlayer/mute")) ∧
    (∀ p, p ∉ recognizedTopics →
       assocGet (acc2.other.getD []) p =
         if kv.1 = p then some kv.2 else assocGet (acc.other.getD []) p) := by
  unfold parseEvent at h
  split_ifs at h with h1 h2 h3 h4 h5 h6 h7
  · split at h
    · exact absurd h (by simp)
    · rw [Except.ok.injEq] at h
      subst h
      refine ⟨by simp [h1], by simp [h1], by simp [h1], by simp [h1], by simp [h1],
              by simp [h1], by simp [h1], by simp [h1], by simp [h1], ?_⟩
      intro p hp
      have hne : kv.1 ≠ p := by
        rw [h1]; intro hc; exact hp (by rw [← hc]; decide)
      rw [if_neg hne]
  · split at h
    · exact absurd h (by simp)
    · rw [Except.ok.injEq] at h
      subst h
      refine ⟨by simp [h2], by simp [h2], by simp [h2], by simp [h2], by simp [h2],
              by simp [h2], by simp [h2], by simp [h2], by simp [h2], ?_⟩
      intro p hp
      have hne : kv.1 ≠ p := by
        rw [h2]; intro hc; exact hp (by rw [← hc]; decide)
      rw [if_neg hne]
  · split at h
    · exact absurd h (by simp)
    · rw [Except.ok.injEq] at h
      subst h
      refine ⟨by simp [h3], by simp [h3], by simp [h3], by simp [h3], by simp [h3],
              by simp [h3], by simp [h3], by simp [h3], by simp [h3], ?_⟩
      intro p hp
      have hne : kv.1 ≠ p := by
        rw [h3]; intro hc; exact hp (by rw [← hc]; decide)
      rw [if_neg hne]
  · split at h
    · exact absurd h (by simp)
    · split at h
      · exact absurd h (by simp)
      · split at h
        · exact absurd h (by simp)
        · split at h
          · exact absurd h (by simp)
          · rw [Except.ok.injEq] at h
            subst h
            refine ⟨by simp [h4], by simp [h4], by simp [h4], by simp [h4], by simp [h4],
                    by simp [h4], by simp [h4], by simp [h4], by simp [h4], ?_⟩
            intro p hp
            have hne : kv.1 ≠ p := by
              rw [h4]; intro hc; exact hp (by rw [← hc]; decide)
            rw [if_neg hne]
  · split at h
    · exact absurd h (by simp)
    · rw [Except.ok.injEq] at h
      subst h
      refine ⟨by simp [h5], by simp [h5], by simp [h5], by simp [h5], by simp [h5],
              by simp [h5], by simp [h5], by simp [h5], by simp [h5], ?_⟩
      intro p hp
      have hne : kv.1 ≠ p := by
        rw [h5]; intro hc; exact hp (by rw [← hc]; decide)
      rw [if_neg hne]
  · split at h
    · exact absurd h (by simp)
    · rw [Except.ok.injEq] at h
      subst h
      refine ⟨by simp [h6], by simp [h6], by simp [h6], by simp [h6], by simp [h6],
              by simp [h6], by simp [h6], by simp [h6], by simp [h6], ?_⟩
      intro p hp
      have hne : kv.1 ≠ p := by
        rw [h6]; intro hc; exact hp (by rw [← hc]; decide)
      rw [if_neg hne]
  · split at h
    · exact absurd h (by simp)
    · rw [Except.ok.injEq] at h
      subst h
      refine ⟨by simp [h7], by simp [h7], by simp [h7], by simp [h7], by simp [h7],
              by simp [h7], by simp [h7], by simp [h7], by simp [h7], ?_⟩
      intro p hp
      have hne : kv.1 ≠ p := by
        rw [h7]; intro hc; exact hp (by rw [← hc]; decide)
      rw [if_neg hne]
  · rw [Except.ok.injEq] at h
    subst h
    refine ⟨by simp [h1], by simp [h2], by simp [h3], by simp [h4], by simp [h4],
            by simp [h4], by simp [h5], by simp [h6], by simp [h7], ?_⟩
    intro p hp
    show assocGet (assocSet (acc.other.getD []) kv.1 kv.2) p = _
    by_cases hkp : kv.1 = p
    · subst hkp
      rw [assocGet_assocSet_self, if_pos rfl]
    · rw [assocGet_assocSet_ne _ _ _ _ (fun hc => hkp hc.symm), if_neg hkp]

theorem parseFold_fields (events : List (String × JVal)) :
    ∀ acc r : ParsedEvents, parseFold acc events = .ok r →
    (r.source.isSome ↔ (acc.source.isSome ∨ "settings:/kef/play/physicalSource" ∈ events.map Prod.fst)) ∧
    (r.song_status.isSome ↔ (acc.song_status.isSome ∨ "player:player/data/playTime" ∈ events.map Prod.fst)) ∧
    (r.volume.isSome ↔ (acc.volume.isSome ∨ "player:volume" ∈ events.map Prod.fst)) ∧
    (r.song_info.isSome ↔ (acc.song_info.isSome ∨ "player:player/data" ∈ events.map Prod.fst)) ∧
    (r.song_length.isSome ↔ (acc.song_length.isSome ∨ "player:player/data" ∈ events.map Prod.fst)) ∧
    (r.status.isSome ↔ (acc.status.isSome ∨ "player:player/data" ∈ events.map Prod.fst)) ∧
    (r.speaker_status.isSome ↔ (acc.speaker_status.isSome ∨ "settings:/kef/host/speakerStatus" ∈ events.map Prod.fst)) ∧
    (r.device_name.isSome ↔ (acc.device_name.isSome ∨ "settings:/deviceName" ∈ events.map Prod.fst)) ∧
    (r.mute.isSome ↔ (acc.mute.isSome ∨ "settings:/mediaPlayer/mute" ∈ events.map Prod.fst)) ∧
    (∀ p, p ∉ recognizedTopics →
       assocGet (r.other.getD []) p = lastOr events p (assocGet (acc.other.getD []) p)) := by
  induction events with
  | nil =>
    intro acc r h
    simp only [parseFold, Except.ok.injEq] at h
    subst h
    refine ⟨by simp, by simp, by simp, by simp, by simp, by simp, by simp, by simp,
            by simp, ?_⟩
    intro p hp
    rfl
  | cons kv rest ih =>
    intro acc r h
    simp only [parseFold] at h
    revert h
    cases hstep : parseEvent acc kv with
    | error e => intro h; simp at h
    | ok acc2 =>
      intro h
      obtain ⟨s1, s2, s3, s4, s5, s6, s7, s8, s9, s10⟩ := parseEvent_fields acc kv acc2 hstep
      obtain ⟨f1, f2, f3, f4, f5, f6, f7, f8, f9, f10⟩ := ih acc2 r h
      refine ⟨?_, ?_, ?_, ?_, ?_, ?_, ?_, ?_, ?_, ?_⟩
      · rw [f1, s1, List.map_cons]; exact or_cons_mem_aux _ _ _ _
      · rw [f2, s2, List.map_cons]; exact or_cons_mem_aux _ _ _ _
      · rw [f3, s3, List.map_cons]; exact or_cons_mem_aux _ _ _ _
      · rw [f4, s4, List.map_cons]; exact or_cons_mem_aux _ _ _ _
      · rw [f5, s5, List.map_cons]; exact or_cons_mem_aux _ _ _ _
      · rw [f6, s6, List.map_cons]; exact or_cons_mem_aux _ _ _ _
      · rw [f7, s7, List.map_cons]; exact or_cons_mem_aux _ _ _ _
      · rw [f8, s8, List.map_cons]; exact or_cons_mem_aux _ _ _ _
      · rw [f9, s9, List.map_cons]; exact or_cons_mem_aux _ _ _ _
      · intro p hp
        rw [f10 p hp, s10 p hp, lastOr_cons]

/-- C5: for every deduplicated topic-to-value mapping accepted by
`parse_events`, each recognized topic present in the input has its named
field set in the output record, a recognized topic absent from the input
leaves its field unset (no null placeholder, nothing carried over: the
record starts empty), and every unrecognized topic is found unchanged in
the `other` bucket. -/
theorem parse_events_partial_record (events : List (String × JVal)) (r : ParsedEvents)
    (hN : (events.map Prod.fst).Nodup) (h : parse_events events = .ok r) :
    (r.source.isSome ↔ "settings:/kef/play/physicalSource" ∈ events.map Prod.fst) ∧
    (r.song_status.isSome ↔ "player:player/data/playTime" ∈ events.map Prod.fst) ∧
    (r.volume.isSome ↔ "player:volume" ∈ events.map Prod.fst) ∧
    (r.song_info.isSome ↔ "player:player/data" ∈ events.map Prod.fst) ∧
    (r.song_length.isSome ↔ "player:player/data" ∈ events.map Prod.fst) ∧
    (r.status.isSome ↔ "player:player/data" ∈ events.map Prod.fst) ∧
    (r.speaker_status.isSome ↔ "settings:/kef/host/speakerStatus" ∈ events.map Prod.fst) ∧
    (r.device_name.isSome ↔ "settings:/deviceName" ∈ events.map Prod.fst) ∧
    (r.mute.isSome ↔ "settings:/mediaPlayer/mute" ∈ events.map Prod.fst) ∧
    (∀ p, p ∉ recognizedTopics → assocGet (r.other.getD []) p = assocGet events p) := by
  obtain ⟨f1, f2, f3, f4, f5, f6, f7, f8, f9, f10⟩ := parseFold_fields events {} r h
  refine ⟨by rw [f1]; simp, by rw [f2]; simp, by rw [f3]; simp, by rw [f4]; simp,
          by rw [f5]; simp, by rw [f6]; simp, by rw [f7]; simp, by rw [f8]; simp,
          by rw [f9]; simp, ?_⟩
  intro p hp
  rw [f10 p hp]
  exact lastOr_eq_assocGet events p hN

/-- Witness for C5 at a concrete input: a poll carrying only a volume
event and one unrecognized topic. -/
theorem parse_events_partial_record_witness :
    (({ volume := some (JVal.int 42), other := some [("a:b", JVal.str "x")] }
        : ParsedEvents).volume.isSome ↔
      "player:volume" ∈ ([("player:volume", JVal.obj [("i32_", JVal.int 42)]),
                         ("a:b", JVal.str "x")].map Prod.fst)) ∧
    (({ volume := some (JVal.int 42), other := some [("a:b", JVal.str "x")] }
        : ParsedEvents).mute.isSome ↔
      "settings:/mediaPlayer/mute" ∈ ([("player:volume", JVal.obj [("i32_", JVal.int 42)]),
                                       ("a:b", JVal.str "x")].map Prod.fst)) :=
  ⟨(parse_events_partial_record
      [("player:volume", JVal.obj [("i32_", JVal.int 42)]), ("a:b", JVal.str "x")]
      { volume := some (JVal.int 42), other := some [("a:b", JVal.str "x")] }
      (by decide) rfl).2.2.1,
   (parse_events_partial_record
      [("player:volume", JVal.obj [("i32_", JVal.int 42)]), ("a:b", JVal.str "x")]
      { volume := some (JVal.int 42), other := some [("a:b", JVal.str "x")] }
      (by decide) rfl).2.2.2.2.2.2.2.2.1⟩

/-- C6 counterexample: a recognized topic whose deduplicated value is the
bare marker "updated" (an event without `itemValue`) makes `parse_events`
raise `AttributeError` (`"updated".get(...)` in Python), aborting the
whole decode instead of returning a record. -/
theorem parse_events_raises_on_updated_marker :
    parse_events [("player:volume", JVal.str "updated")] =
      .error .attributeError ∧
    processPollResponse [⟨"player:volume", none⟩] = .error .attributeError :=
  ⟨rfl, rfl⟩

/-- Check used by the amended C6: an optional member that must be a
dictionary when present. -/
def objWhenPresent : Option JVal → Bool
  | none => true
  | some (.obj _) => true
  | some _ => false

/-- The `mediaData` member and its `metaData` member are dictionaries as
far as they are present. -/
def mediaDataOk : Option JVal → Bool
  | none => true
  | some (.obj md) => objWhenPresent (assocGet md "metaData")
  | some _ => false

/-- The `trackRoles` member and its nested members are dictionaries as far
as they are present. -/
def trackRolesValOk : Option JVal → Bool
  | none => true
  | some (.obj tr) => mediaDataOk (assocGet tr "mediaData")
  | some _ => false

/-- Check used by the amended C6: the `trackRoles` chain of
`get_song_information` only meets dictionaries. -/
def trackRolesOk (fields : List (String × JVal)) : Bool :=
  trackRolesValOk (assocGet fields "trackRoles")

/-- Check used by the amended C6: the `status` member of a player-data
value is a dictionary when present. -/
def statusOk (fields : List (String × JVal)) : Bool :=
  objWhenPresent (assocGet fields "status")

/-- When `parse_events` can decode a player-data value without raising. -/
def playerDataOk : JVal → Bool
  | .obj fields => trackRolesOk fields && statusOk fields
  | _ => false

/-- When `parse_events` can decode the value of a given topic without
raising: a recognized topic needs a dictionary (with dictionary-shaped
nested members for the player-data topic); the tags inside are free, and
an unrecognized topic never raises. -/
def goodEventValue (topic : String) (v : JVal) : Bool :=
  if topic = "player:player/data" then playerDataOk v
  else if topic ∈ ["settings:/kef/play/physicalSource", "player:player/data/playTime",
                   "player:volume", "settings:/kef/host/speakerStatus",
                   "settings:/deviceName", "settings:/mediaPlayer/mute"] then
    (match v with
     | .obj fields => true
     | _ => false)
  else true

theorem get_song_information_ok (fields : List (String × JVal))
    (h : trackRolesOk fields = true) :
    ∃ si, get_song_information (.obj fields) = .ok si := by
  unfold trackRolesOk at h
  unfold get_song_information
  cases htr : assocGet fields "trackRoles" with
  | none =>
    simp [pyGetD, pyGet, htr, assocGet, Option.getD, JVal.truthy]
  | some tr0 =>
    rw [htr] at h
    cases tr0 with
    | obj tr =>
      simp only [trackRolesValOk] at h
      cases hmd : assocGet tr "mediaData" with
      | none =>
        simp [pyGetD, pyGet, htr, hmd, assocGet, Option.getD, JVal.truthy]
      | some md0 =>
        rw [hmd] at h
        cases md0 with
        | obj md =>
          simp only [mediaDataOk] at h
          cases hmt : assocGet md "metaData" with
          | none =>
            simp [pyGetD, pyGet, htr, hmd, hmt, assocGet, Option.getD, JVal.truthy]
          | some mt0 =>
            rw [hmt] at h
            cases mt0 with
            | obj mt =>
              cases hopt : assocGet mt "albumArtist" with
              | none =>
                simp [pyGetD, pyGet, htr, hmd, hmt, hopt, assocGet, Option.getD, JVal.truthy]
              | some aa =>
                cases htruthy : aa.truthy with
                | false =>
                  simp [pyGetD, pyGet, htr, hmd, hmt, hopt, htruthy, assocGet, Option.getD]
                | true =>
                  simp [pyGetD, pyGet, htr, hmd, hmt, hopt, htruthy, assocGet, Option.getD]
            | null => simp [objWhenPresent] at h
            | bool b => simp [objWhenPresent] at h
            | int n => simp [objWhenPresent] at h
            | str s => simp [objWhenPresent] at h
            | arr xs => simp [objWhenPresent] at h
        | null => simp [mediaDataOk] at h
        | bool b => simp [mediaDataOk] at h
        | int n => simp [mediaDataOk] at h
        | str s => simp [mediaDataOk] at h
        | arr xs => simp [mediaDataOk] at h
    | null => simp [trackRolesValOk] at h
    | bool b => simp [trackRolesValOk] at h
    | int n => simp [trackRolesValOk] at h
    | str s => simp [trackRolesValOk] at h
    | arr xs => simp [trackRolesValOk] at h

theorem parseEvent_ok_of_good (acc : ParsedEvents) (kv : String × JVal)
    (hg : goodEventValue kv.1 kv.2 = true) :
    ∃ acc2, parseEvent acc kv = .ok acc2 := by
  unfold goodEventValue at hg
  unfold parseEvent
  split_ifs with h1 h2 h3 h4 h5 h6 h7
  · rw [if_neg (by rw [h1]; decide), if_pos (by rw [h1]; decide)] at hg
    cases hv : kv.2 <;> rw [hv] at hg <;> try simp at hg
    simp only [pyGet]
    exact ⟨_, rfl⟩
  · rw [if_neg (by rw [h2]; decide), if_pos (by rw [h2]; decide)] at hg
    cases hv : kv.2 <;> rw [hv] at hg <;> try simp at hg
    simp only [pyGet]
    exact ⟨_, rfl⟩
  · rw [if_neg (by rw [h3]; decide), if_pos (by rw [h3]; decide)] at hg
    cases hv : kv.2 <;> rw [hv] at hg <;> try simp at hg
    simp only [pyGet]
    exact ⟨_, rfl⟩
  · rw [if_pos h4] at hg
    cases hv : kv.2 with
    | null => rw [hv] at hg; simp [playerDataOk] at hg
    | bool b => rw [hv] at hg; simp [playerDataOk] at hg
    | int n => rw [hv] at hg; simp [playerDataOk] at hg
    | str s => rw [hv] at hg; simp [playerDataOk] at hg
    | arr xs => rw [hv] at hg; simp [playerDataOk] at hg
    | obj fields =>
      rw [hv] at hg
      simp only [playerDataOk, Bool.and_eq_true] at hg
      obtain ⟨htr, hst⟩ := hg
      obtain ⟨si, hsi⟩ := get_song_information_ok fields htr
      rw [hsi]
      unfold statusOk at hst
      cases hstatus : assocGet fields "status" with
      | none =>
        simp [pyGetD, pyGet, hstatus, assocGet, Option.getD]
      | some st0 =>
        rw [hstatus] at hst
        cases st0 with
        | obj st =>
          simp [pyGetD, pyGet, hstatus, assocGet, Option.getD]
        | null => simp [objWhenPresent] at hst
        | bool b => simp [objWhenPresent] at hst
        | int n => simp [objWhenPresent] at hst
        | str s => simp [objWhenPresent] at hst
        | arr xs => simp [objWhenPresent] at hst
  · rw [if_neg (by rw [h5]; decide), if_pos (by rw [h5]; decide)] at hg
    cases hv : kv.2 <;> rw [hv] at hg <;> try simp at hg
    simp only [pyGet]
    exact ⟨_, rfl⟩
  · rw [if_neg (by rw [h6]; decide), if_pos (by rw [h6]; decide)] at hg
    cases hv : kv.2 <;> rw [hv] at hg <;> try simp at hg
    simp only [pyGet]
    exact ⟨_, rfl⟩
  · rw [if_neg (by rw [h7]; decide), if_pos (by rw [h7]; decide)] at hg
    cases hv : kv.2 <;> rw [hv] at hg <;> try simp at hg
    simp only [pyGet]
    exact ⟨_, rfl⟩
  · exact ⟨_, rfl⟩

/-- C6 (amended): `parse_events` returns a record without raising for
every input mapping in which each recognized topic carries a dictionary
value (with dictionary-shaped `trackRoles` / `mediaData` / `metaData` /
`status` members, when present, for the player-data topic).  The tags
inside those dictionaries are unconstrained: a wrong or missing tag
degrades to a null field instead of aborting.  A recognized topic whose
value is not a dictionary — e.g. the bare marker "updated" — raises
`AttributeError` and aborts the whole decode. -/
theorem parse_events_ok_of_good (events : List (String × JVal))
    (hgood : ∀ kv ∈ events, goodEventValue kv.1 kv.2 = true) :
    ∃ r, parse_events events = .ok r := by
  suffices h : ∀ acc, ∃ r, parseFold acc events = .ok r from h {}
  induction events with
  | nil => exact fun acc => ⟨acc, rfl⟩
  | cons kv rest ih =>
    intro acc
    obtain ⟨acc2, h2⟩ := parseEvent_ok_of_good acc kv (hgood kv (List.mem_cons_self kv rest))
    obtain ⟨r, hr⟩ := ih (fun kv2 hm => hgood kv2 (List.mem_cons_of_mem kv hm)) acc2
    refine ⟨r, ?_⟩
    simp only [parseFold]
    rw [h2]
    exact hr

/-- Witness for the amended C6: a volume event carrying a dictionary with
a wrong tag decodes without raising (to a null volume field). -/
theorem parse_events_ok_of_good_witness :
    ∃ r, parse_events [("player:volume", JVal.obj [("bogus", JVal.str "x")]),
                       ("player:player/data", JVal.obj [])] = .ok r :=
  parse_events_ok_of_good
    [("player:volume", JVal.obj [("bogus", JVal.str "x")]),
     ("player:player/data", JVal.obj [])]
    (by decide)

/-- The polling-related attributes of `KefConnector`, as assigned by
`__init__` (lines 241-243) and mutated only by `_get_polling_queue` and
`poll_speaker`.  Timestamps (`time.time()` values) are rationals. -/
structure ConnectorState where
  polling_queue : Option String
  last_polled : Option ℚ
  previous_poll_song_status : Bool
deriving DecidableEq, Repr

/-- `KefConnector.__init__` (lines 241-243). -/
def initState : ConnectorState :=
  { polling_queue := none, last_polled := none, previous_poll_song_status := false }

/-- The 18 fixed subscribe entries of `_get_polling_queue`
(lines 3011-3030), as (path, type) pairs. -/
def fixedSubscribeTopics : List (String × String) :=
  [("settings:/mediaPlayer/playMode", "itemWithValue"),
   ("playlists:pq/getitems", "rows"),
   ("notifications:/display/queue", "rows"),
   ("settings:/kef/host/maximumVolume", "itemWithValue"),
   ("player:volume", "itemWithValue"),
   ("kef:fwupgrade/info", "itemWithValue"),
   ("settings:/kef/host/volumeStep", "itemWithValue"),
   ("settings:/kef/host/volumeLimit", "itemWithValue"),
   ("settings:/mediaPlayer/mute", "itemWithValue"),
   ("settings:/kef/host/speakerStatus", "itemWithValue"),
   ("settings:/kef/play/physicalSource", "itemWithValue"),
   ("player:player/data", "itemWithValue"),
   ("kef:speedTest/status", "itemWithValue"),
   ("network:info", "itemWithValue"),
   ("kef:eqProfile/v2", "itemWithValue"),
   ("settings:/kef/host/modelName", "itemWithValue"),
   ("settings:/version", "itemWithValue"),
   ("settings:/deviceName", "itemWithValue")]

/-- The subscribe list built by `_get_polling_queue` (lines 3010-3037):
the 18 fixed topics, plus the playTime topic only when the function's
`song_status` parameter is true. -/
def get_polling_queue_payload (song_status : Bool) : List (String × String) :=
  fixedSubscribeTopics ++
    (if song_status then [("player:player/data/playTime", "itemWithValue")] else [])

/-- `KefConnector._get_polling_queue` (lines 3006-3050), modelled on its
payload and state effects: it builds the subscribe payload from its
`song_status` parameter (the `poll_song_status` parameter is accepted but
never read), performs the modifyQueue request (whose reply yields
`newId`), and stores the queue id and the creation time `now`. -/
def get_polling_queue (s : ConnectorState) (now : ℚ) (newId : String)
    (song_status poll_song_status : Bool) : List (String × String) × ConnectorState :=
  (get_polling_queue_payload song_status,
   { s with polling_queue := some newId, last_polled := some now })

/-- The queue-recreation test of `poll_speaker` (lines 3096-3100).  Python
evaluates the disjuncts left to right; with `polling_queue` set but
`last_polled` still `None` the subtraction would raise `TypeError`, but
the two attributes are only ever assigned together, so that state is
unreachable (modelled by `true` here). -/
def queueRecreationNeeded (s : ConnectorState) (now : ℚ) (song_status : Bool) : Bool :=
  s.polling_queue.isNone ||
    (match s.last_polled with
     | some t => decide (now - t > 50)
     | none => true) ||
    (song_status != s.previous_poll_song_status)

/-- Result of the queue-management prefix of `poll_speaker`: whether a
modifyQueue request was issued, the subscribe list it carried, and the
connector state afterwards. -/
structure EnsureResult where
  subscribed : Bool
  payload : Option (List (String × String))
  state : ConnectorState
deriving DecidableEq, Repr

/-- The queue-management prefix of `KefConnector.poll_speaker`
(lines 3093-3102): when recreation is needed it stores the requested
`song_status` flag in `_previous_poll_song_status` and calls
`_get_polling_queue(poll_song_status=poll_song_status)`, which leaves that
function's `song_status` parameter at its default `false`. -/
def poll_speaker_ensure (s : ConnectorState) (now : ℚ) (newId : String)
    (song_status poll_song_status : Bool) : EnsureResult :=
  if queueRecreationNeeded s now song_status then
    let s1 : ConnectorState := { s with previous_poll_song_status := song_status }
    let r := get_polling_queue s1 now newId false poll_song_status
    { subscribed := true, payload := some r.1, state := r.2 }
  else
    { subscribed := false, payload := none, state := s }

/-- Network-level deadline of the sync long-poll request (line 3112). -/
def sync_longpoll_request_timeout (timeout : ℚ) : ℚ := timeout + 0.5

/-- Network-level deadline of the async long-poll request (line 6791):
written `10 + 0.5`, so the `timeout` parameter is not used. -/
def async_longpoll_request_timeout (timeout : ℚ) : ℚ := 10 + 0.5

/-- What the blocking pollQueue request does: returns a raw event list, or
times out at the transport level. -/
inductive TransportOutcome where
  | response (raw : List RawEvent)
  | timedOut

/-- How one `poll_speaker` call can fail after the queue management. -/
inductive PollFailure where
  | transportTimeout
  | decodeError (e : PyErr)
deriving DecidableEq, Repr

/-- Observable effects of one full `poll_speaker` call. -/
structure PollRun where
  subscribed : Bool
  queueIdUsed : Option String
  result : Except PollFailure ParsedEvents
  final : ConnectorState

/-- `KefConnector.poll_speaker` (lines 3082-3129) as one step: the
queue-management prefix, the blocking pollQueue request bound to the
stored queue id (its outcome is an input here), then deduplication and
decoding.  After the recreation check the method performs no further
writes to `polling_queue`, `last_polled` or `_previous_poll_song_status`,
so the final state is the ensure-phase state whatever the outcome. -/
def poll_speaker_run (s : ConnectorState) (now : ℚ) (newId : String)
    (song_status poll_song_status : Bool) (outcome : TransportOutcome) : PollRun :=
  let er := poll_speaker_ensure s now newId song_status poll_song_status
  { subscribed := er.subscribed,
    queueIdUsed := er.state.polling_queue,
    result :=
      match outcome with
      | .timedOut => .error .transportTimeout
      | .response raw =>
        match processPollResponse raw with
        | .ok r => .ok r
        | .error e => .error (.decodeError e),
    final := er.state }

/-- C2: when the requested song-status flag equals the stored one, the
sync `poll_speaker` issues a subscribe request iff no queue exists or
more than 50 seconds have passed since the stored creation timestamp; a
subscribe stores the fresh queue id and the current time; and two
consecutive calls with the flag false within 50 seconds subscribe exactly
once, the second leaving the whole stored state (queue id included)
unchanged. -/
theorem poll_speaker_fresh_queue_reuse :
    (∀ (s : ConnectorState) (now t0 : ℚ) (newId : String) (ss ps : Bool),
       s.last_polled = some t0 → ss = s.previous_poll_song_status →
       ((poll_speaker_ensure s now newId ss ps).subscribed = true ↔
         (s.polling_queue = none ∨ now - t0 > 50))) ∧
    (∀ (s : ConnectorState) (now : ℚ) (newId : String) (ss ps : Bool),
       (poll_speaker_ensure s now newId ss ps).subscribed = true →
       (poll_speaker_ensure s now newId ss ps).state.polling_queue = some newId ∧
       (poll_speaker_ensure s now newId ss ps).state.last_polled = some now) ∧
    (∀ (t1 t2 : ℚ) (id1 id2 : String) (ps1 ps2 : Bool), t2 - t1 ≤ 50 →
       (poll_speaker_ensure initState t1 id1 false ps1).subscribed = true ∧
       (poll_speaker_ensure (poll_speaker_ensure initState t1 id1 false ps1).state
          t2 id2 false ps2).subscribed = false ∧
       (poll_speaker_ensure (poll_speaker_ensure initState t1 id1 false ps1).state
          t2 id2 false ps2).state =
         (poll_speaker_ensure initState t1 id1 false ps1).state) := by
  refine ⟨?_, ?_, ?_⟩
  · intro s now t0 newId ss ps h0 hf
    unfold poll_speaker_ensure queueRecreationNeeded
    rw [h0, hf, bne_self_eq_false]
    cases hq : s.polling_queue with
    | none => simp
    | some q =>
      by_cases ht : now - t0 > 50
      · simp [ht]
      · simp [ht]
  · intro s now newId ss ps h
    unfold poll_speaker_ensure at h ⊢
    by_cases hc : queueRecreationNeeded s now ss = true
    · simp only [hc, if_true, if_pos]
      exact ⟨rfl, rfl⟩
    · rw [if_neg hc] at h
      simp at h
  · intro t1 t2 id1 id2 ps1 ps2 h
    have hng : ¬(t2 - t1 > 50) := not_lt.mpr h
    refine ⟨?_, ?_, ?_⟩ <;>
      simp [poll_speaker_ensure, queueRecreationNeeded, initState,
            get_polling_queue, hng]

/-- Witness for C2: with a queue created at time 0, a call at time 10
with the same flag subscribes iff the (false) staleness condition holds;
and the two-call scenario from a fresh connector. -/
theorem poll_speaker_fresh_queue_reuse_witness :
    ((poll_speaker_ensure
        { polling_queue := some "q0", last_polled := some 0,
          previous_poll_song_status := false } 10 "q1" false false).subscribed = true ↔
      (({ polling_queue := some "q0", last_polled := some 0,
          previous_poll_song_status := false } : ConnectorState).polling_queue = none ∨
        (10 : ℚ) - 0 > 50)) ∧
    ((poll_speaker_ensure initState 0 "q1" false true).subscribed = true ∧
     (poll_speaker_ensure (poll_speaker_ensure initState 0 "q1" false true).state
        10 "q2" false false).subscribed = false ∧
     (poll_speaker_ensure (poll_speaker_ensure initState 0 "q1" false true).state
        10 "q2" false false).state =
       (poll_speaker_ensure initState 0 "q1" false true).state) :=
  ⟨poll_speaker_fresh_queue_reuse.1 _ 10 0 "q1" false false rfl rfl,
   poll_speaker_fresh_queue_reuse.2.2 0 10 "q1" "q2" true false (by norm_num)⟩

/-- C3 evaluated at the failing input: a second `poll_speaker` call that
newly requests song-progress tracking through the current
`poll_song_status` parameter, within the staleness window, issues no
subscribe request and leaves the state unchanged — the recreation check
(line 3099) compares only the deprecated `song_status` argument, and
`poll_song_status` is never consulted; changing the deprecated argument
instead does force a subscribe within the window. -/
theorem poll_speaker_ignores_poll_song_status_change :
    (poll_speaker_ensure (poll_speaker_ensure initState 0 "q1" false false).state
       10 "q2" false true).subscribed = false ∧
    (poll_speaker_ensure (poll_speaker_ensure initState 0 "q1" false false).state
       10 "q2" false true).state =
      (poll_speaker_ensure initState 0 "q1" false false).state ∧
    (poll_speaker_ensure (poll_speaker_ensure initState 0 "q1" false false).state
       10 "q2" true true).subscribed = true := by
  have hs1 : (poll_speaker_ensure initState 0 "q1" false false).state =
      { polling_queue := some "q1", last_polled := some 0,
        previous_poll_song_status := false } := by
    simp [poll_speaker_ensure, queueRecreationNeeded, initState, get_polling_queue]
  have hc : queueRecreationNeeded
      { polling_queue := some "q1", last_polled := some 0,
        previous_poll_song_status := false } 10 false = false := by
    simp [queueRecreationNeeded]
    norm_num
  refine ⟨?_, ?_, ?_⟩
  · rw [hs1]
    simp [poll_speaker_ensure, hc]
  · rw [hs1]
    simp [poll_speaker_ensure, hc]
  · rw [hs1]
    simp [poll_speaker_ensure, queueRecreationNeeded]

/-- C4 evaluated against the code: whenever `poll_speaker` (re)creates the
subscription — even on a call that requests song progress through either
flag — the subscribe payload is exactly the 18 fixed topics; the
playback-position topic `player:player/data/playTime` is never among
them, because `poll_speaker` forwards the request to the unused
`poll_song_status` parameter of `_get_polling_queue` while the topic is
appended only for that function's (defaulted) `song_status` parameter. -/
theorem poll_speaker_subscribe_payload_fixed :
    (∀ (s : ConnectorState) (now : ℚ) (newId : String) (ss ps : Bool),
       (poll_speaker_ensure s now newId ss ps).subscribed = true →
       (poll_speaker_ensure s now newId ss ps).payload = some fixedSubscribeTopics) ∧
    (poll_speaker_ensure initState 0 "q1" true true).payload =
      some fixedSubscribeTopics ∧
    fixedSubscribeTopics.length = 18 ∧
    "player:player/data/playTime" ∉ fixedSubscribeTopics.map Prod.fst := by
  refine ⟨?_, by decide, by decide, by decide⟩
  intro s now newId ss ps h
  unfold poll_speaker_ensure at h ⊢
  by_cases hc : queueRecreationNeeded s now ss = true
  · simp only [hc, if_true, if_pos]
    simp [get_polling_queue, get_polling_queue_payload]
  · rw [if_neg hc] at h
    simp at h

/-- Witness for C4: the first poll of a fresh connector with song progress
requested still subscribes to only the fixed topics. -/
theorem poll_speaker_subscribe_payload_fixed_witness :
    (poll_speaker_ensure initState 0 "q1" false true).payload =
      some fixedSubscribeTopics :=
  poll_speaker_subscribe_payload_fixed.1 initState 0 "q1" false true (by decide)

/-- C8 evaluated against the code: the sync `poll_speaker` passes
`timeout + 0.5` as the network deadline for every requested timeout, but
the async `poll_speaker` passes the constant `10 + 0.5`, ignoring the
requested timeout (e.g. for a requested timeout of 3 it uses 10.5, not
3.5). -/
theorem longpoll_request_timeout_values :
    (∀ timeout : ℚ, sync_longpoll_request_timeout timeout = timeout + 0.5) ∧
    (∀ timeout : ℚ, async_longpoll_request_timeout timeout = 10.5) ∧
    async_longpoll_request_timeout 3 ≠ 3 + 0.5 := by
  refine ⟨fun _ => rfl, fun _ => ?_, by norm_num [async_longpoll_request_timeout]⟩
  norm_num [async_longpoll_request_timeout]

/-- C9: the transport outcome of the long-poll request never changes the
connector state ( `poll_speaker` writes no state after the recreation
check), and after a transport timeout on a fresh queue a re-poll within
the staleness window is bound to the same queue id with no new subscribe
request. -/
theorem poll_timeout_preserves_subscription :
    (∀ (s : ConnectorState) (now : ℚ) (newId : String) (ss ps : Bool)
       (o1 o2 : TransportOutcome),
       (poll_speaker_run s now newId ss ps o1).final =
         (poll_speaker_run s now newId ss ps o2).final) ∧
    (∀ (s : ConnectorState) (t0 now1 now2 : ℚ) (qid id1 id2 : String)
       (ss ps1 ps2 : Bool) (o2 : TransportOutcome),
       s.polling_queue = some qid → s.last_polled = some t0 →
       ss = s.previous_poll_song_status →
       ¬(now1 - t0 > 50) → ¬(now2 - t0 > 50) →
       (poll_speaker_run s now1 id1 ss ps1 .timedOut).result =
         .error .transportTimeout ∧
       (poll_speaker_run s now1 id1 ss ps1 .timedOut).subscribed = false ∧
       (poll_speaker_run s now1 id1 ss ps1 .timedOut).final = s ∧
       (poll_speaker_run (poll_speaker_run s now1 id1 ss ps1 .timedOut).final
          now2 id2 ss ps2 o2).subscribed = false ∧
       (poll_speaker_run (poll_speaker_run s now1 id1 ss ps1 .timedOut).final
          now2 id2 ss ps2 o2).queueIdUsed = some qid) := by
  constructor
  · intro s now newId ss ps o1 o2
    rfl
  · intro s t0 now1 now2 qid id1 id2 ss ps1 ps2 o2 hq hlp hf h1 h2
    have hc1 : queueRecreationNeeded s now1 ss = false := by
      simp [queueRecreationNeeded, hq, hlp, hf, h1]
    have hc2 : queueRecreationNeeded s now2 ss = false := by
      simp [queueRecreationNeeded, hq, hlp, hf, h2]
    have her1 : poll_speaker_ensure s now1 id1 ss ps1 =
        { subscribed := false, payload := none, state := s } := by
      unfold poll_speaker_ensure
      rw [hc1]
      simp
    have her2 : poll_speaker_ensure s now2 id2 ss ps2 =
        { subscribed := false, payload := none, state := s } := by
      unfold poll_speaker_ensure
      rw [hc2]
      simp
    refine ⟨rfl, ?_, ?_, ?_, ?_⟩ <;>
      simp [poll_speaker_run, her1, her2, hq]

/-- Witness for C9: a concrete timed-out poll on a fresh queue followed by
a re-poll bound to the same queue id. -/
theorem poll_timeout_preserves_subscription_witness :
    (poll_speaker_run (poll_speaker_run
        { polling_queue := some "q0", last_polled := some 0,
          previous_poll_song_status := false } 10 "id1" false false .timedOut).final
        20 "id2" false false .timedOut).queueIdUsed = some "q0" :=
  (poll_timeout_preserves_subscription.2
    { polling_queue := some "q0", last_polled := some 0,
      previous_poll_song_status := false }
    0 10 20 "q0" "id1" "id2" false false false .timedOut rfl rfl rfl
    (by norm_num) (by norm_num)).2.2.2.2

/-- A Python attribute value relevant to the async polling state. -/
inductive AVal where
  | pynone
  | bool (b : Bool)
  | str (s : String)
  | num (q : ℚ)
deriving DecidableEq, Repr

/-- Attribute read on a Python object: reading a name that was never
assigned raises `AttributeError`. -/
def attrGet (attrs : List (String × AVal)) (nm : String) : Except PyErr AVal :=
  match assocGet attrs nm with
  | some v => .ok v
  | none => .error .attributeError

/-- The polling-related attributes assigned by `KefAsyncConnector.__init__`
(lines 4399-4402).  The flag attribute it defines is named
`_previous_poll_song_status`. -/
def asyncInitAttrs : List (String × AVal) :=
  [("last_polled", .pynone), ("polling_queue", .pynone),
   ("_previous_poll_song_status", .bool false)]

/-- The queue-recreation test of the async `poll_speaker`
(lines 6778-6782), evaluated left to right as Python does.  Its third
disjunct reads `self._previous_polling_song_status` — a name the class
never assigns.  Subtracting a non-number `last_polled` would raise
`TypeError` (unreachable, as the two attributes are always set
together). -/
def asyncNeedsQueue (attrs : List (String × AVal)) (now : ℚ) (song_status : Bool) :
    Except PyErr Bool :=
  match attrGet attrs "polling_queue" with
  | .error e => .error e
  | .ok .pynone => .ok true
  | .ok _ =>
    match attrGet attrs "last_polled" with
    | .error e => .error e
    | .ok (.num t) =>
      if now - t > 50 then .ok true
      else
        match attrGet attrs "_previous_polling_song_status" with
        | .error e => .error e
        | .ok prev => .ok (decide (AVal.bool song_status ≠ prev))
    | .ok _ => .error .typeError

/-- `KefAsyncConnector.get_polling_queue` (lines 6689-6732): the same
payload construction as the sync connector (`poll_song_status` again
accepted but unread), storing the queue id and the creation time. -/
def async_get_polling_queue (attrs : List (String × AVal)) (now : ℚ) (newId : String)
    (song_status poll_song_status : Bool) :
    List (String × String) × List (String × AVal) :=
  (get_polling_queue_payload song_status,
   assocSet (assocSet attrs "polling_queue" (.str newId)) "last_polled" (.num now))

/-- The queue-management prefix of the async `poll_speaker`
(lines 6777-6783): unlike the sync version it stores no
`_previous_...` flag at all; on recreation it calls
`get_polling_queue(poll_song_status=...)`, leaving that function's
`song_status` parameter at its default `false`.  Returns whether a
subscribe was issued, its payload, and the attributes afterwards. -/
def async_poll_speaker_ensure (attrs : List (String × AVal)) (now : ℚ) (newId : String)
    (song_status poll_song_status : Bool) :
    Except PyErr (Bool × Option (List (String × String)) × List (String × AVal)) :=
  match asyncNeedsQueue attrs now song_status with
  | .error e => .error e
  | .ok true =>
    let r := async_get_polling_queue attrs now newId false poll_song_status
    .ok (true, some r.1, r.2)
  | .ok false => .ok (false, none, attrs)

/-- C7: from a fresh async connector the first `poll_speaker` call
subscribes, but any following call within the 50-second window raises
`AttributeError` while evaluating the recreation condition: it reads
`_previous_polling_song_status` though only `_previous_poll_song_status`
was ever assigned, and since the failing read precedes every state write,
every subsequent call on such a state fails the same way — the
handle-reuse path is unreachable without an exception. -/
theorem async_poll_speaker_attribute_error :
    (∀ (t1 t2 : ℚ) (id1 id2 : String) (ss1 ps1 ss2 ps2 : Bool), t2 - t1 ≤ 50 →
       async_poll_speaker_ensure asyncInitAttrs t1 id1 ss1 ps1 =
         .ok (true, some fixedSubscribeTopics,
              [("last_polled", .num t1), ("polling_queue", .str id1),
               ("_previous_poll_song_status", .bool false)]) ∧
       async_poll_speaker_ensure
         [("last_polled", AVal.num t1), ("polling_queue", AVal.str id1),
          ("_previous_poll_song_status", AVal.bool false)] t2 id2 ss2 ps2 =
         .error .attributeError) ∧
    (∀ (attrs : List (String × AVal)) (now t : ℚ) (newId qid : String) (ss ps : Bool),
       assocGet attrs "_previous_polling_song_status" = none →
       assocGet attrs "polling_queue" = some (.str qid) →
       assocGet attrs "last_polled" = some (.num t) →
       ¬(now - t > 50) →
       async_poll_speaker_ensure attrs now newId ss ps = .error .attributeError) := by
  constructor
  · intro t1 t2 id1 id2 ss1 ps1 ss2 ps2 h
    have hng : ¬(t2 - t1 > 50) := not_lt.mpr h
    constructor
    · simp [async_poll_speaker_ensure, asyncNeedsQueue, attrGet, assocGet,
            asyncInitAttrs, async_get_polling_queue, assocSet,
            get_polling_queue_payload]
    · simp [async_poll_speaker_ensure, asyncNeedsQueue, attrGet, assocGet, hng]
  · intro attrs now t newId qid ss ps hmiss hq hlp hnow
    unfold async_poll_speaker_ensure asyncNeedsQueue attrGet
    rw [hq, hlp, hmiss]
    simp [hnow]

/-- Witness for C7: concrete second call ten time units after the first
raises `AttributeError`. -/
theorem async_poll_speaker_attribute_error_witness :
    async_poll_speaker_ensure
      [("last_polled", AVal.num 0), ("polling_queue", AVal.str "qa"),
       ("_previous_poll_song_status", AVal.bool false)] 10 "qb" false false =
      .error .attributeError :=
  (async_poll_speaker_attribute_error.1 0 10 "qa" "qb" false false false false
    (by norm_num)).2

/-- The long-poll response of the C10 scenario. -/
def c10input : List RawEvent :=
  [⟨"player:volume", some (.obj [("i32_", .int 42)])⟩]

/-- C10 counterexample: on the response
`[(player:volume, i32 42)]` the record returned by `poll_speaker` is not
the claimed one with an empty `other` mapping — the `"other"` key is
absent altogether. -/
theorem processPollResponse_no_empty_other_key :
    processPollResponse c10input ≠
      .ok { volume := some (JVal.int 42), other := some [] } := by
  intro h
  have hcalc : processPollResponse c10input =
      .ok { volume := some (JVal.int 42) } := rfl
  rw [hcalc, Except.ok.injEq] at h
  have h3 := congrArg ParsedEvents.other h
  simp at h3

/-- C10 (amended): on the long-poll response
`[{"path": "player:volume", "itemValue": {"i32_": 42}}]` the record
returned by `poll_speaker` has `volume = 42`, every other recognized
field unset, and no `"other"` key at all (the bucket is created only when
an unrecognized topic arrives). -/
theorem processPollResponse_volume_42 :
    processPollResponse c10input = .ok { volume := some (JVal.int 42) } ∧
    ({ volume := some (JVal.int 42) } : ParsedEvents).volume = some (JVal.int 42) ∧
    ({ volume := some (JVal.int 42) } : ParsedEvents).source = none ∧
    ({ volume := some (JVal.int 42) } : ParsedEvents).song_status = none ∧
    ({ volume := some (JVal.int 42) } : ParsedEvents).song_info = none ∧
    ({ volume := some (JVal.int 42) } : ParsedEvents).song_length = none ∧
    ({ volume := some (JVal.int 42) } : ParsedEvents).status = none ∧
    ({ volume := some (JVal.int 42) } : ParsedEvents).speaker_status = none ∧
    ({ volume := some (JVal.int 42) } : ParsedEvents).device_name = none ∧
    ({ volume := some (JVal.int 42) } : ParsedEvents).mute = none ∧
    ({ volume := some (JVal.int 42) } : ParsedEvents).other = none :=
  ⟨rfl, rfl, rfl, rfl, rfl, rfl, rfl, rfl, rfl, rfl, rfl⟩

end PyKef
